import Mathlib

/-!
Verification development for the avr-context repository: the AVR machine
context layer (avrcontext_impl.h) and the asymmetric stackful coroutine
layer built on it (avrcoro_impl.h).

Pointer values are modelled as natural numbers, with 0 playing the role
of NULL; AVR pointers are 16 bits wide, so casts to uint16_t are taken
modulo 65536.  Code addresses are kept symbolic via the CodePtr type,
because the concrete address of a function is assigned by the linker.
-/

/-- Symbolic code addresses.  The only code address the library itself
stores into a context is the address of the internal function
avr_makecontext_callfunc (avrcontext_impl.h line 75); every other
address stays abstract. -/
inductive CodePtr where
  | callfunc
  | loc (n : Nat)
deriving DecidableEq

/-- Machine context record, from the avr_context_t definition
(avrcontext_arduino.c lines 39 to 56): the status register, the 32
general purpose registers r0 to r31, the program counter and the stack
pointer.  The register file is a function from the register number to
its byte value; only indices 0 to 31 are ever used. -/
structure avr_context_t where
  sreg : Nat
  r : Nat → Nat
  pc : CodePtr
  sp : Nat

/-- Observable control events at the context layer: calling a function
pointer with an argument, and installing a context with
avr_setcontext. -/
inductive CtxEvent where
  | call (funcp funcargp : Nat)
  | setcontext (cp : Nat)
deriving DecidableEq

/-- Trace of the internal helper avr_makecontext_callfunc
(avrcontext_impl.h lines 63 to 67): it calls func(funcarg) and then
calls avr_setcontext(successor). -/
def avr_makecontext_callfunc (successor funcp funcargp : Nat) : List CtxEvent :=
  [CtxEvent.call funcp funcargp, CtxEvent.setcontext successor]

/-- Transcription of avr_makecontext (avrcontext_impl.h lines 69 to 87).
The stack pointer becomes stackp + stack_size - 1 (16 bit pointer
arithmetic, written so that the unsigned wraparound is explicit), the
program counter becomes the address of avr_makecontext_callfunc, and
the three arguments of that helper are placed into the register pairs
r25:r24 (successor), r23:r22 (func) and r21:r20 (funcarg), low byte in
the lower register, exactly as the source stores p[0] and p[1] of each
uint16_t cast. -/
def avr_makecontext (cp : avr_context_t) (stackp stack_size : Nat)
    (successor_cp funcp funcargp : Nat) : avr_context_t :=
  { cp with
    sp := (stackp + stack_size + 65535) % 65536
    pc := CodePtr.callfunc
    r := fun i =>
      if i = 24 then successor_cp % 65536 % 256
      else if i = 25 then successor_cp % 65536 / 256
      else if i = 22 then funcp % 65536 % 256
      else if i = 23 then funcp % 65536 / 256
      else if i = 20 then funcargp % 65536 % 256
      else if i = 21 then funcargp % 65536 / 256
      else cp.r i }

/-- Activation of a context: control arrives at the program counter
with the prepared register file.  When the program counter is the
address of avr_makecontext_callfunc, execution is that helper with its
three arguments decoded from the AVR calling convention register pairs
(first argument in r25:r24, second in r23:r22, third in r21:r20).  A
context pointing at any other code is opaque and produces no events of
its own. -/
def activateCtx (cp : avr_context_t) : List CtxEvent :=
  match cp.pc with
  | CodePtr.callfunc =>
    avr_makecontext_callfunc (cp.r 24 + 256 * cp.r 25) (cp.r 22 + 256 * cp.r 23)
      (cp.r 20 + 256 * cp.r 21)
  | CodePtr.loc _ => []

/-- Machine state for the save and restore primitives: the currently
executing CPU state and the memory holding context records, addressed
by pointer value. -/
structure Machine where
  cur : avr_context_t
  mem : Nat → avr_context_t

/-- Transcription of avr_getcontext (avrcontext_impl.h lines 19 to 28):
AVR_SAVE_CONTEXT writes the currently executing state into the record
pointed at by cp. -/
def avr_getcontext (m : Machine) (cp : Nat) : Machine :=
  { m with mem := Function.update m.mem cp m.cur }

/-- Transcription of avr_setcontext (avrcontext_impl.h lines 30 to 38):
AVR_RESTORE_CONTEXT loads the record pointed at by cp into the CPU. -/
def avr_setcontext (m : Machine) (cp : Nat) : Machine :=
  { m with cur := m.mem cp }

/-- Transcription of avr_swapcontext (avrcontext_impl.h lines 41 to 54):
AVR_SAVE_CONTEXT into the record at oucp, then AVR_RESTORE_CONTEXT from
the record at ucp; the restore reads memory after the save has written
it. -/
def avr_swapcontext (m : Machine) (oucp ucp : Nat) : Machine :=
  { cur := Function.update m.mem oucp m.cur ucp
    mem := Function.update m.mem oucp m.cur }

/-!
Coroutine layer.  A coroutine body is a finite tree of yield calls
ending in a return; this is the shape of any terminating execution of
an avr_coro_func_t entry function.  The channel argument of resume and
yield, a pointer to a pointer in C, is an Option Nat: none models a
NULL channel, some v models a cell currently holding the value v.
-/

/-- Execution of a coroutine entry function, as seen through its calls
into the library.  callYield selfNull arg k is a call
avr_coro_yield(self, data) where selfNull tells whether the body passed
NULL for self, arg is the current contents of the cell it passed for
data (none for a NULL data pointer), and k receives the updated cell
contents together with the int result of the yield call.  finish v is
the entry function returning the value v. -/
inductive Proc where
  | callYield (selfNull : Bool) (arg : Option Nat) (k : Option Nat → Nat → Proc)
  | finish (v : Nat)

/-- State of the exec context of a coroutine.  fresh: as prepared by
avr_coro_init, activating it starts avr_coro_trampoline.  suspended k:
parked inside avr_coro_yield just after its swap; activating it resumes
at the write back code of yield, modelled by the stored continuation
applied to the current channel slot.  dead: the trampoline has
finished; the exec context is stale and is never legally activated
again. -/
inductive ExecState where
  | fresh
  | suspended (k : Nat → Proc)
  | dead

/-- Coroutine record, from the avr_coro_t definition (avrcoro.h):
status is the stored char, data is the channel slot (a void pointer,
0 for NULL), funcp is the stored entry function and exec is its
machine context.  The ret context of the source does not need a field:
the invoker context saved into coro.ret by the swap in avr_coro_resume
is exactly the point in avr_coro_resume after that swap, which the
interpreter below represents by returning there. -/
structure avr_coro_t where
  status : Int
  data : Nat
  funcp : Nat → Proc
  exec : ExecState

/-- Coroutine state codes, from the avr_coro_state_t enumeration
(avrcoro.h): SUSPENDED = 0, RUNNING = 1, DEAD = 2, ILLEGAL = 3. -/
inductive avr_coro_state_t where
  | suspended
  | running
  | dead
  | illegal
deriving DecidableEq

/-- Cast of an in-range stored status byte to avr_coro_state_t, as in
the return expression of avr_coro_state. -/
def statusCast (s : Int) : avr_coro_state_t :=
  if s = 0 then avr_coro_state_t.suspended
  else if s = 1 then avr_coro_state_t.running
  else if s = 2 then avr_coro_state_t.dead
  else avr_coro_state_t.illegal

/-- Transcription of avr_coro_state (avrcoro_impl.h lines 79 to 82):
ILLEGAL when the pointer is NULL or the stored status is below
AVR_CORO_SUSPENDED (0) or at least AVR_CORO_ILLEGAL (3), otherwise the
stored status cast to avr_coro_state_t. -/
def avr_coro_state (coro : Option avr_coro_t) : avr_coro_state_t :=
  match coro with
  | none => avr_coro_state_t.illegal
  | some c =>
    if c.status < 0 ∨ 3 ≤ c.status then avr_coro_state_t.illegal
    else statusCast c.status

/-- Transcription of avr_coro_init (avrcoro_impl.h lines 29 to 45):
fail, touching nothing, when coro, stackp or funcp is NULL or
stack_size is 0; otherwise set status to AVR_CORO_SUSPENDED, store the
entry function, and prepare the exec context (avr_getcontext followed
by avr_makecontext aiming it at avr_coro_trampoline) so that its first
activation runs the trampoline. -/
def avr_coro_init (coro : Option avr_coro_t) (stackp stack_size : Nat)
    (funcp : Option (Nat → Proc)) : Nat × Option avr_coro_t :=
  match coro, funcp with
  | some c, some f =>
    if stackp = 0 ∨ stack_size = 0 then (1, some c)
    else (0, some { c with status := 0, funcp := f, exec := ExecState.fresh })
  | _, _ => (1, coro)

/-- Successful suspension inside avr_coro_yield (avrcoro_impl.h lines
69 to 71): status becomes AVR_CORO_SUSPENDED, the slot receives the
value of the cell passed for data (NULL, that is 0, when the data
pointer is NULL), and the exec context is parked at the point after the
swap: on reactivation the cell is refilled from the slot when the data
pointer was non NULL (lines 72 to 75), yield returns 0, and the body
continues. -/
def avr_coro_yield_suspend (c : avr_coro_t) (arg : Option Nat)
    (k : Option Nat → Nat → Proc) : avr_coro_t :=
  { c with
    status := 0
    data := arg.getD 0
    exec := ExecState.suspended
      (fun slot => if arg.isSome then k (some slot) 0 else k none 0) }

/-- Run of a coroutine body from the point where its exec context has
just been activated, up to the swap that next hands control back to
the invoker.  A finish is avr_coro_trampoline after the entry function
returned (avrcoro_impl.h lines 24 to 26): the slot receives the return
value, status becomes AVR_CORO_DEAD, and the trampoline falls into
avr_setcontext of the ret context, that is, back to the invoker.  A
callYield is a call of avr_coro_yield (lines 63 to 77): when self is
NULL or the status is not AVR_CORO_RUNNING it returns 1 with the
record and the cell untouched and the body keeps running; otherwise it
suspends. -/
def runCoro (c : avr_coro_t) : Proc → avr_coro_t
  | Proc.finish v => { c with data := v, status := 2, exec := ExecState.dead }
  | Proc.callYield selfNull arg k =>
    if selfNull = true ∨ c.status ≠ 1 then runCoro c (k arg 1)
    else avr_coro_yield_suspend c arg k

/-- Activation of the exec context of a coroutine, the effect of the
avr_swapcontext(coro.ret, coro.exec) call inside avr_coro_resume
(avrcoro_impl.h line 55).  A fresh context starts avr_coro_trampoline
(lines 21 to 27), which calls funcp(coro, coro.data); a suspended
context resumes inside avr_coro_yield, whose stored continuation reads
the current slot.  A dead exec context is stale; activating it is
undefined behaviour in the source and is never reached through the
library entry points, so the model leaves the record as it stands. -/
def avr_coro_activate (c : avr_coro_t) : avr_coro_t :=
  match c.exec with
  | ExecState.fresh => runCoro c (c.funcp c.data)
  | ExecState.suspended k => runCoro c (k c.data)
  | ExecState.dead => c

/-- Entry mutation of avr_coro_resume (avrcoro_impl.h lines 53 to 54),
performed after its guard and before its swap: status becomes
AVR_CORO_RUNNING and the slot receives the value of the cell passed
for data, or NULL (0) when the data pointer is NULL. -/
def resumeBegin (c : avr_coro_t) (data : Option Nat) : avr_coro_t :=
  { c with status := 1, data := data.getD 0 }

/-- Transcription of avr_coro_resume (avrcoro_impl.h lines 47 to 61):
fail with 1, touching nothing, when coro is NULL or its status is not
AVR_CORO_SUSPENDED; otherwise perform the entry mutation, swap into the
exec context (running the coroutine up to its next yield or its
termination), and on the way out refill the cell from the slot when
the data pointer was not NULL, returning 0.  The result is the int
result, the coroutine record afterwards, and the cell afterwards. -/
def avr_coro_resume (coro : Option avr_coro_t) (data : Option Nat) :
    Nat × Option avr_coro_t × Option Nat :=
  match coro with
  | none => (1, none, data)
  | some c =>
    if c.status ≠ 0 then (1, some c, data)
    else
      let c2 := avr_coro_activate (resumeBegin c data)
      (0, some c2, match data with | none => none | some _ => some c2.data)

/-- Body that performs exactly one yield, offering the value y, and
then returns the value r. -/
def bodyOnce (y r : Nat) : Nat → Proc :=
  fun _ => Proc.callYield false (some y) (fun _ _ => Proc.finish r)

/-- Body that immediately yields back the value it received as its
initial argument, then returns 0. -/
def bodyEcho : Nat → Proc :=
  fun x => Proc.callYield false (some x) (fun _ _ => Proc.finish 0)

/-- Body that returns its initial argument at once, without yielding. -/
def bodyRet : Nat → Proc :=
  fun x => Proc.finish x

/-- Concrete suspended coroutine whose slot holds 42 and whose body
returns its initial argument; used to observe the write that resume
performs on the slot when its channel is NULL. -/
def cEcho42 : avr_coro_t :=
  { status := 0, data := 42, funcp := bodyRet, exec := ExecState.fresh }

/-- Concrete garbage record handed to avr_coro_init in scenarios: init
overwrites status, funcp and exec and leaves data alone. -/
def cGarbage : avr_coro_t :=
  { status := 5, data := 9, funcp := bodyRet, exec := ExecState.dead }

/-- Concrete freshly initialised coroutine with a body that returns 7
immediately. -/
def cFresh7 : avr_coro_t :=
  { status := 0, data := 0, funcp := fun _ => Proc.finish 7, exec := ExecState.fresh }

/-- Concrete running coroutine record, for the state query. -/
def cRunning : avr_coro_t :=
  { status := 1, data := 0, funcp := bodyRet, exec := ExecState.fresh }

/-- Concrete machine context with everything cleared. -/
def ctx0 : avr_context_t :=
  { sreg := 0, r := fun _ => 0, pc := CodePtr.loc 0, sp := 0 }

/-- Concrete machine whose current state is recognisably distinct from
the records in memory. -/
def m0 : Machine :=
  { cur := { ctx0 with sreg := 77 }, mem := fun _ => ctx0 }

/-- Concrete continuation that ignores both results and returns 0;
used in witnesses that exercise the yield branches. -/
def kDrop : Option Nat → Nat → Proc :=
  fun _ _ => Proc.finish 0

/-- Termination scenario, step 0: initialise a coroutine whose body
yields y once and then returns r. -/
def termScenarioInit (y r : Nat) : Option avr_coro_t :=
  (avr_coro_init (some cGarbage) 7 64 (some (bodyOnce y r))).2

/-- Termination scenario, step 1: first resume, with a cell holding v. -/
def termScenario1 (y r v : Nat) : Nat × Option avr_coro_t × Option Nat :=
  avr_coro_resume (termScenarioInit y r) (some v)

/-- Termination scenario, step 2: second resume, with a cell holding w. -/
def termScenario2 (y r v w : Nat) : Nat × Option avr_coro_t × Option Nat :=
  avr_coro_resume (termScenario1 y r v).2.1 (some w)

/-- Termination scenario, step 3: third resume, with a cell holding u. -/
def termScenario3 (y r v w u : Nat) : Nat × Option avr_coro_t × Option Nat :=
  avr_coro_resume (termScenario2 y r v w).2.1 (some u)

/-- Claim C1: activating a context prepared by avr_makecontext with
successor succ, entry function f and argument arg produces exactly one
call of f with arg, followed by a transfer to succ via avr_setcontext,
and no transfer to any other context. -/
theorem makecontext_activation_calls_entry_then_successor
    (cp : avr_context_t) (stackp stack_size succ f arg : Nat)
    (hs : succ < 65536) (hf : f < 65536) (ha : arg < 65536) :
    activateCtx (avr_makecontext cp stackp stack_size succ f arg) =
      [CtxEvent.call f arg, CtxEvent.setcontext succ] ∧
    (activateCtx (avr_makecontext cp stackp stack_size succ f arg)).count
      (CtxEvent.call f arg) = 1 ∧
    ∀ s, CtxEvent.setcontext s ∈
      activateCtx (avr_makecontext cp stackp stack_size succ f arg) → s = succ := by
  have h1 : succ % 65536 = succ := Nat.mod_eq_of_lt hs
  have h2 : f % 65536 = f := Nat.mod_eq_of_lt hf
  have h3 : arg % 65536 = arg := Nat.mod_eq_of_lt ha
  have key : activateCtx (avr_makecontext cp stackp stack_size succ f arg) =
      [CtxEvent.call f arg, CtxEvent.setcontext succ] := by
    simp [activateCtx, avr_makecontext, avr_makecontext_callfunc, h1, h2, h3]
    omega
  refine ⟨key, ?_, ?_⟩
  · rw [key]
    simp [List.count_cons]
  · intro s hmem
    rw [key] at hmem
    simp at hmem
    exact hmem

/-- Witness for claim C1 at a concrete prepared context. -/
theorem makecontext_activation_witness :
    activateCtx (avr_makecontext ctx0 100 28 777 1234 4321) =
      [CtxEvent.call 1234 4321, CtxEvent.setcontext 777] :=
  (makecontext_activation_calls_entry_then_successor ctx0 100 28 777 1234 4321
    (by decide) (by decide) (by decide)).1

/-- Claim C9: avr_makecontext writes exactly the stack pointer (to
stackp + stack_size - 1), the program counter (to the address of
avr_makecontext_callfunc), and the register pairs r25:r24 (successor),
r23:r22 (entry function) and r21:r20 (argument), low byte in the lower
register; the status register and all other general purpose registers
are unchanged. -/
theorem makecontext_register_and_field_writes
    (cp : avr_context_t) (stackp stack_size succ f arg : Nat)
    (h1 : 1 ≤ stack_size) (h2 : stackp + stack_size ≤ 65536)
    (hs : succ < 65536) (hf : f < 65536) (ha : arg < 65536) :
    (avr_makecontext cp stackp stack_size succ f arg).sp = stackp + stack_size - 1 ∧
    (avr_makecontext cp stackp stack_size succ f arg).pc = CodePtr.callfunc ∧
    (avr_makecontext cp stackp stack_size succ f arg).r 24 = succ % 256 ∧
    (avr_makecontext cp stackp stack_size succ f arg).r 25 = succ / 256 ∧
    (avr_makecontext cp stackp stack_size succ f arg).r 22 = f % 256 ∧
    (avr_makecontext cp stackp stack_size succ f arg).r 23 = f / 256 ∧
    (avr_makecontext cp stackp stack_size succ f arg).r 20 = arg % 256 ∧
    (avr_makecontext cp stackp stack_size succ f arg).r 21 = arg / 256 ∧
    (avr_makecontext cp stackp stack_size succ f arg).sreg = cp.sreg ∧
    ∀ i : Nat, (i < 20 ∨ 26 ≤ i) →
      (avr_makecontext cp stackp stack_size succ f arg).r i = cp.r i := by
  simp [avr_makecontext, Nat.mod_eq_of_lt, hs, hf, ha]
  refine ⟨by omega, ?_⟩
  intro i hi
  rw [if_neg (by omega), if_neg (by omega), if_neg (by omega), if_neg (by omega),
    if_neg (by omega), if_neg (by omega)]

/-- Witness for claim C9 at a concrete prepared context. -/
theorem makecontext_register_writes_witness :
    (avr_makecontext ctx0 100 28 777 1234 4321).sp = 100 + 28 - 1 ∧
    (avr_makecontext ctx0 100 28 777 1234 4321).pc = CodePtr.callfunc ∧
    (avr_makecontext ctx0 100 28 777 1234 4321).r 24 = 777 % 256 ∧
    (avr_makecontext ctx0 100 28 777 1234 4321).r 25 = 777 / 256 ∧
    (avr_makecontext ctx0 100 28 777 1234 4321).r 22 = 1234 % 256 ∧
    (avr_makecontext ctx0 100 28 777 1234 4321).r 23 = 1234 / 256 ∧
    (avr_makecontext ctx0 100 28 777 1234 4321).r 20 = 4321 % 256 ∧
    (avr_makecontext ctx0 100 28 777 1234 4321).r 21 = 4321 / 256 ∧
    (avr_makecontext ctx0 100 28 777 1234 4321).sreg = ctx0.sreg ∧
    ∀ i : Nat, (i < 20 ∨ 26 ≤ i) →
      (avr_makecontext ctx0 100 28 777 1234 4321).r i = ctx0.r i :=
  makecontext_register_and_field_writes ctx0 100 28 777 1234 4321
    (by decide) (by decide) (by decide) (by decide) (by decide)

/-- Claim C8: avr_swapcontext is exactly avr_getcontext into the first
record followed by avr_setcontext of the second, and for any two
context records A and B, swapping out through A and later swapping
back into A (from any point at which the record at A is still intact)
restores the caller visible machine state that was current at the
original swap. -/
theorem swapcontext_is_capture_then_install :
    (∀ m oucp ucp,
      avr_swapcontext m oucp ucp = avr_setcontext (avr_getcontext m oucp) ucp) ∧
    (∀ (m : Machine) (a b : Nat) (m2 : Machine) (c : Nat),
      m2.mem a = (avr_swapcontext m a b).mem a → c ≠ a →
      (avr_swapcontext m2 c a).cur = m.cur) := by
  constructor
  · intro m oucp ucp
    rfl
  · intro m a b m2 c hmem hca
    simp [avr_swapcontext, avr_getcontext, avr_setcontext] at *
    rw [Function.update_noteq (Ne.symm hca), hmem]

/-- Witness for claim C8: a concrete out and back round trip through
three distinct context records restores the original current state. -/
theorem swapcontext_roundtrip_witness :
    (avr_swapcontext (avr_swapcontext m0 0 1) 2 0).cur = m0.cur :=
  swapcontext_is_capture_then_install.2 m0 0 1 (avr_swapcontext m0 0 1) 2
    rfl (by decide)

/-- Claim C2: avr_coro_resume fails, returning 1, exactly when the
coroutine pointer is NULL or the stored status is not
AVR_CORO_SUSPENDED, leaving the record and the channel cell untouched;
a yield call from a running body fails, returning 1 with the record
untouched, exactly when the self pointer is NULL or the status is not
AVR_CORO_RUNNING, and otherwise suspends. -/
theorem coro_resume_yield_failure_cases :
    (∀ co d, (avr_coro_resume co d).1 = 1 ↔
      co = none ∨ ∃ c, co = some c ∧ c.status ≠ 0) ∧
    (∀ co d, (avr_coro_resume co d).1 = 1 →
      (avr_coro_resume co d).2.1 = co ∧ (avr_coro_resume co d).2.2 = d) ∧
    (∀ c selfNull arg k, (selfNull = true ∨ c.status ≠ 1) →
      runCoro c (Proc.callYield selfNull arg k) = runCoro c (k arg 1)) ∧
    (∀ c arg k, c.status = 1 →
      runCoro c (Proc.callYield false arg k) = avr_coro_yield_suspend c arg k) := by
  refine ⟨?_, ?_, ?_, ?_⟩
  · intro co d
    match co with
    | none => simp [avr_coro_resume]
    | some c =>
      by_cases h : c.status = 0 <;> simp [avr_coro_resume, h]
  · intro co d h
    match co with
    | none => simp [avr_coro_resume]
    | some c =>
      by_cases hc : c.status = 0
      · simp [avr_coro_resume, hc] at h
      · simp [avr_coro_resume, hc]
  · intro c sn arg k h
    rw [runCoro, if_pos h]
  · intro c arg k h
    rw [runCoro, if_neg (by simp [h])]

/-- Witness for claim C2: resuming a concrete running coroutine leaves
the record and cell unchanged, and a yield with status not running is
the identity on the record with result 1. -/
theorem coro_resume_yield_failure_witness :
    ((avr_coro_resume (some cRunning) (some 3)).2.1 = some cRunning ∧
      (avr_coro_resume (some cRunning) (some 3)).2.2 = some 3) ∧
    runCoro cEcho42 (Proc.callYield false none kDrop) = runCoro cEcho42 (kDrop none 1) :=
  ⟨coro_resume_yield_failure_cases.2.1 (some cRunning) (some 3) rfl,
    coro_resume_yield_failure_cases.2.2.1 cEcho42 false none kDrop
      (Or.inr (by decide))⟩

/-- Claim C3: a coroutine whose body yields the value y once and then
returns r behaves as: first resume succeeds and its channel observes y;
second resume succeeds, its channel observes r, and the coroutine is
then Dead; a third resume fails and changes nothing. -/
theorem coro_termination_scenario (y r v w u : Nat) :
    (termScenario1 y r v).1 = 0 ∧ (termScenario1 y r v).2.2 = some y ∧
    (termScenario2 y r v w).1 = 0 ∧ (termScenario2 y r v w).2.2 = some r ∧
    avr_coro_state (termScenario2 y r v w).2.1 = avr_coro_state_t.dead ∧
    (termScenario3 y r v w u).1 = 1 ∧
    (termScenario3 y r v w u).2.1 = (termScenario2 y r v w).2.1 ∧
    (termScenario3 y r v w u).2.2 = some u := by
  simp [termScenarioInit, termScenario1, termScenario2, termScenario3,
    avr_coro_init, avr_coro_resume, avr_coro_activate, runCoro, bodyOnce,
    avr_coro_state, statusCast, resumeBegin, avr_coro_yield_suspend, cGarbage, bodyRet]

/-- Claim C4: round trip channel law: resuming a coroutine whose body
immediately yields back the value it received, with a channel cell
holding v, succeeds and leaves the cell holding v on return. -/
theorem coro_channel_roundtrip (v : Nat) :
    (avr_coro_resume (avr_coro_init (some cGarbage) 7 64 (some bodyEcho)).2 (some v)).1 = 0 ∧
    (avr_coro_resume (avr_coro_init (some cGarbage) 7 64 (some bodyEcho)).2 (some v)).2.2 =
      some v := by
  simp [avr_coro_init, avr_coro_resume, avr_coro_activate, runCoro, bodyEcho,
    resumeBegin, avr_coro_yield_suspend, cGarbage, bodyRet]

/-- Counterexample for claim C5: with a NULL channel, avr_coro_resume
does write the channel slot at call entry: line 54 of avrcoro_impl.h
stores NULL (0) into coro.data, overwriting the previous slot value.
On the record cEcho42, whose slot holds 42, the slot after the entry
mutation holds 0, not 42, and the body consequently receives 0: the
claim that the slot is not written is false. -/
theorem resume_null_channel_slot_written_cex :
    ¬ ((resumeBegin cEcho42 none).data = cEcho42.data) ∧
    ((avr_coro_resume (some cEcho42) none).2.1).map avr_coro_t.data = some 0 := by
  constructor
  · decide
  · rfl

/-- Claim C5 (amended): with an absent channel argument the slot is set
to NULL (0) at call entry, rather than receiving a caller value; the
caller variable is not written at call exit (resume returns none for
the cell, and the continuation stored by a NULL channel yield receives
none); and the call still succeeds under its normal preconditions. -/
theorem null_channel_optout :
    (∀ c : avr_coro_t, (resumeBegin c none).data = 0) ∧
    (∀ c : avr_coro_t, c.status = 0 →
      (avr_coro_resume (some c) none).1 = 0 ∧
      (avr_coro_resume (some c) none).2.2 = none) ∧
    (∀ c k, c.status = 1 → runCoro c (Proc.callYield false none k) =
      { c with
        status := 0
        data := 0
        exec := ExecState.suspended (fun _ => k none 0) }) := by
  refine ⟨?_, ?_, ?_⟩
  · intro c
    rfl
  · intro c h
    simp [avr_coro_resume, h]
  · intro c k h
    rw [runCoro, if_neg (by simp [h])]
    rfl

/-- Witness for the amended claim C5: a concrete suspended coroutine
resumed with a NULL channel succeeds and returns no cell, and a
concrete running coroutine yielding with a NULL channel suspends with
slot 0 and a continuation that receives none. -/
theorem null_channel_optout_witness :
    ((avr_coro_resume (some cEcho42) none).1 = 0 ∧
      (avr_coro_resume (some cEcho42) none).2.2 = none) ∧
    runCoro cRunning (Proc.callYield false none kDrop) =
      { cRunning with
        status := 0
        data := 0
        exec := ExecState.suspended (fun _ => kDrop none 0) } :=
  ⟨null_channel_optout.2.1 cEcho42 (by decide),
    null_channel_optout.2.2 cRunning kDrop (by decide)⟩

/-- Claim C6: avr_coro_state is a pure query (it takes its argument by
value and returns only a state code, mutating nothing): it returns
ILLEGAL exactly when the pointer is NULL or the stored status lies
outside the three legal values 0, 1, 2, and otherwise returns the
stored status cast to the state type. -/
theorem coro_state_query :
    (∀ co, avr_coro_state co = avr_coro_state_t.illegal ↔
      co = none ∨ ∃ c, co = some c ∧ (c.status < 0 ∨ 3 ≤ c.status)) ∧
    (∀ c : avr_coro_t, 0 ≤ c.status → c.status < 3 →
      avr_coro_state (some c) = statusCast c.status) := by
  constructor
  · intro co
    match co with
    | none => simp [avr_coro_state]
    | some c =>
      by_cases h : c.status < 0 ∨ 3 ≤ c.status
      · simp [avr_coro_state, h]
      · have h2 : c.status = 0 ∨ c.status = 1 ∨ c.status = 2 := by omega
        rcases h2 with h2 | h2 | h2 <;> simp [avr_coro_state, h, statusCast, h2]
  · intro c h0 h3
    simp [avr_coro_state]
    omega

/-- Witness for claim C6: the state of a concrete running coroutine is
the cast of its stored status. -/
theorem coro_state_query_witness :
    avr_coro_state (some cRunning) = statusCast cRunning.status :=
  coro_state_query.2 cRunning (by decide) (by decide)

/-- Claim C7: avr_coro_init fails, returning 1 and leaving the record
untouched, exactly when the coroutine pointer, the stack pointer or
the entry function is NULL or the stack size is 0; on success it
returns 0 and the coroutine is immediately in the Suspended state. -/
theorem coro_init_validation :
    (∀ co sp sz f, (avr_coro_init co sp sz f).1 = 1 ↔
      co = none ∨ sp = 0 ∨ sz = 0 ∨ f = none) ∧
    (∀ co sp sz f, (avr_coro_init co sp sz f).1 = 1 →
      (avr_coro_init co sp sz f).2 = co) ∧
    (∀ co sp sz f, (avr_coro_init co sp sz f).1 = 0 →
      avr_coro_state (avr_coro_init co sp sz f).2 = avr_coro_state_t.suspended) := by
  refine ⟨?_, ?_, ?_⟩
  · intro co sp sz f
    match co, f with
    | none, _ => simp [avr_coro_init]
    | some c, none => simp [avr_coro_init]
    | some c, some g =>
      by_cases h : sp = 0 ∨ sz = 0 <;> simp [avr_coro_init, h]
  · intro co sp sz f h
    match co, f with
    | none, _ => simp [avr_coro_init]
    | some c, none => simp [avr_coro_init]
    | some c, some g =>
      by_cases hs : sp = 0 ∨ sz = 0
      · simp [avr_coro_init, hs]
      · simp [avr_coro_init, hs] at h
  · intro co sp sz f h
    match co, f with
    | none, _ => simp [avr_coro_init] at h
    | some c, none => simp [avr_coro_init] at h
    | some c, some g =>
      by_cases hs : sp = 0 ∨ sz = 0
      · simp [avr_coro_init, hs] at h
      · simp [avr_coro_init, hs, avr_coro_state, statusCast]

/-- Witness for claim C7: a concrete successful init followed by the
state query yields Suspended. -/
theorem coro_init_validation_witness :
    avr_coro_state (avr_coro_init (some cGarbage) 7 64 (some bodyRet)).2 =
      avr_coro_state_t.suspended :=
  coro_init_validation.2.2 (some cGarbage) 7 64 (some bodyRet) rfl

/-- Every complete run of a coroutine body ends with the coroutine
either suspended (status 0, set by a successful yield) or dead (status
2, set by the trampoline when the entry function returns): these are
the only two ways control comes back to the invoker. -/
theorem runCoro_status_final (p : Proc) :
    ∀ c : avr_coro_t, (runCoro c p).status = 0 ∨ (runCoro c p).status = 2 := by
  induction p with
  | finish v =>
    intro c
    right
    rfl
  | callYield sn arg k ih =>
    intro c
    by_cases h : sn = true ∨ c.status ≠ 1
    · rw [runCoro, if_pos h]
      exact ih arg 1 c
    · rw [runCoro, if_neg h]
      left
      rfl

/-- Claim C10: the invoker never observes a Running coroutine: whenever
avr_coro_resume returns success, the resulting record has status
Suspended (0) or Dead (2).  The hypothesis rules out the unreachable
records whose stored exec context is already dead while the status
still claims Suspended; on every record the library can produce, a
dead exec context coincides with status Dead. -/
theorem resume_returns_only_suspended_or_dead (c : avr_coro_t) (d : Option Nat)
    (hwf : c.exec = ExecState.dead → c.status = 2)
    (hs : (avr_coro_resume (some c) d).1 = 0) :
    ∃ c2, (avr_coro_resume (some c) d).2.1 = some c2 ∧
      (c2.status = 0 ∨ c2.status = 2) := by
  by_cases h0 : c.status = 0
  · refine ⟨avr_coro_activate (resumeBegin c d), ?_, ?_⟩
    · simp [avr_coro_resume, h0]
    · have hex : (resumeBegin c d).exec = c.exec := rfl
      cases he : c.exec with
      | fresh =>
        rw [avr_coro_activate, hex, he]
        exact runCoro_status_final _ _
      | suspended k =>
        rw [avr_coro_activate, hex, he]
        exact runCoro_status_final _ _
      | dead => exact absurd (hwf he) (by omega)
  · simp [avr_coro_resume, h0] at hs

/-- Witness for claim C10: resuming a concrete fresh coroutine whose
body returns at once ends with status Suspended or Dead. -/
theorem resume_returns_witness :
    ∃ c2, (avr_coro_resume (some cFresh7) none).2.1 = some c2 ∧
      (c2.status = 0 ∨ c2.status = 2) :=
  resume_returns_only_suspended_or_dead cFresh7 none (by simp [cFresh7]) rfl
